import Mathlib

set_option maxRecDepth 8000

/-!
Verification of the USB device identity resolver in `src/tools/ideviceinfo.c`
(`find_driver` and the option-processing loop of `main`).

The USB access layer (libusb-0.1 / libusb-win32: `usb_init`, `usb_get_version`,
`usb_find_busses`, `usb_find_devices`, `usb_get_busses`, `usb_open`,
`usb_get_string_simple`, `usb_close`) is modelled as an explicit world value
`USBWorld` describing the attached buses and, per device, the observable
outcome of each call the code makes on it.  The calls the resolver performs
are recorded in an event trace so that I/O-freedom, short-circuiting and
handle-release claims can be stated.
-/

/-- `VID_APPLE` from ideviceinfo.c line 47. -/
def VID_APPLE : Nat := 0x5ac

/-- One attached USB device, together with the observable outcomes of the
calls `find_driver` makes on it:
* `idVendor`, `idProduct`, `iSerialNumber` are the descriptor fields read
  from `dev->descriptor`;
* `serial` is the device's actual serial-number string descriptor (what a
  successful `usb_get_string_simple` read delivers);
* `openOk` is whether `usb_open` returns a non-NULL handle;
* `readRet` is the return value of `usb_get_string_simple`;
* `garbage` is the content of the caller's buffer after a read that did not
  succeed (`readRet ≤ 0`): the C buffer `dev_serial` is uninitialized, so a
  failed read leaves arbitrary bytes in it. -/
structure USBDevice where
  idVendor : Nat
  idProduct : Nat
  iSerialNumber : Nat
  serial : String
  openOk : Bool
  readRet : Int
  garbage : String
  deriving DecidableEq, Repr

/-- A USB bus: a list of attached devices (`bus->devices`). -/
structure USBBus where
  devices : List USBDevice
  deriving DecidableEq, Repr

/-- The state of the USB access layer: `driverMajor` is
`usb_get_version()->driver.major` (−1 when the kernel driver is not
available), `busses` is the chain returned by `usb_get_busses`. -/
structure USBWorld where
  driverMajor : Int
  busses : List USBBus
  deriving DecidableEq, Repr

/-- The nested bus/device loop of `find_driver` visits the devices of each bus
in order; flattening preserves that visiting order. -/
def flattenDevices (w : USBWorld) : List USBDevice :=
  (w.busses.map USBBus.devices).flatten

/-- Trace of USB-layer calls made by `find_driver`.  Devices are identified by
their position in `flattenDevices`; `openDev i ok` records a `usb_open` call
together with whether it returned a handle. -/
inductive Event where
  | usbInit
  | getVersion
  | findBusses
  | findDevices
  | openDev (i : Nat) (ok : Bool)
  | getString (i : Nat)
  | closeDev (i : Nat)
  deriving DecidableEq, Repr

/-- Content of the `dev_serial` buffer after the `usb_get_string_simple` call:
on success (positive return) the serial descriptor truncated to the 99
characters that fit the 100-byte buffer, otherwise whatever was in the
uninitialized buffer. -/
def readBuffer (d : USBDevice) : String :=
  if 0 < d.readRet then d.serial.take 99 else d.garbage

/-- The vendor/product filter of lines 122-126: a device is a candidate iff
`idVendor == VID_APPLE && idProduct == pid` (the `uint16_t` fields are
promoted to `int` for the comparison, so a negative `pid` never matches). -/
def filterPass (pid : Int) (d : USBDevice) : Bool :=
  (d.idVendor == VID_APPLE) && ((d.idProduct : Int) == pid)

/-- The inner test of lines 133-139: `result` is set exactly when
`usb_get_string_simple` returned a NONZERO value (the code tests `if (ret)`,
so negative returns also enter the branch) and `strcmp(udid, dev_serial) == 0`. -/
def serialMatches (udid : String) (d : USBDevice) : Bool :=
  (d.readRet != 0) && (readBuffer d == udid)

/-- A device on which the scan of `find_driver` stops with a positive result:
it passes the vendor/product filter, `usb_open` succeeds, and the serial read
yields a buffer equal to the target. -/
def fullMatch (pid : Int) (udid : String) (d : USBDevice) : Bool :=
  filterPass pid d && d.openOk && serialMatches udid d

/-- Following the spec's wording only (refinement target, not the code): a
device matches when its vendor id is the fixed vendor filter, its product id
is the query's product id, and its serial-number string descriptor equals the
target identity byte-for-byte. -/
def specMatch (pid : Int) (udid : String) (d : USBDevice) : Bool :=
  (d.idVendor == VID_APPLE) && ((d.idProduct : Int) == pid) && (d.serial == udid)

/-- The device loop of `find_driver` (lines 118-148) over the indexed list of
attached devices: skip filter failures, attempt `usb_open` on candidates,
skip devices whose open fails, read and compare the serial of opened devices
(closing the handle in every case), and stop at the first match. -/
def scanDevices (pid : Int) (udid : String) : List (Nat × USBDevice) → Bool × List Event
  | [] => (false, [])
  | p :: rest =>
    if filterPass pid p.2 then
      if p.2.openOk then
        if serialMatches udid p.2 then
          (true, [Event.openDev p.1 true, Event.getString p.1, Event.closeDev p.1])
        else
          ((scanDevices pid udid rest).1,
            Event.openDev p.1 true :: Event.getString p.1 :: Event.closeDev p.1 ::
              (scanDevices pid udid rest).2)
      else
        ((scanDevices pid udid rest).1, Event.openDev p.1 false :: (scanDevices pid udid rest).2)
    else
      scanDevices pid udid rest

/-- `find_driver` (ideviceinfo.c lines 95-151).  `udid` is the `const char*`
argument: `none` models a NULL pointer (only NULL takes the early-return
branch; an empty string does not).  Returns the string printed ("TRUE" or
"FALSE") together with the trace of USB-layer calls performed. -/
def find_driver (pid : Int) (udid : Option String) (w : USBWorld) : String × List Event :=
  match udid with
  | none => ("FALSE", [])
  | some u =>
    if w.driverMajor == -1 then
      ("FALSE", [Event.usbInit, Event.getVersion])
    else
      ((if (scanDevices pid u (flattenDevices w).enum).1 then "TRUE" else "FALSE"),
        Event.usbInit :: Event.getVersion :: Event.findBusses :: Event.findDevices ::
          (scanDevices pid u (flattenDevices w).enum).2)

/-- C `isspace` on the characters `atoi` skips. -/
def isSpaceC (c : Char) : Bool :=
  c = ' ' || c = '\t' || c = '\n' || c = '\x0b' || c = '\x0c' || c = '\r'

/-- Digit-accumulating loop of `atoi`: consume decimal digits, stop at the
first non-digit. -/
def atoiLoop : List Char → Nat → Nat
  | [], acc => acc
  | c :: cs, acc =>
    if c.isDigit then atoiLoop cs (acc * 10 + (c.toNat - 48)) else acc

/-- C `atoi`: skip leading whitespace, read an optional sign, then decimal
digits up to the first non-digit; no digits yields 0.  (Overflow of the C
`int` is undefined behaviour and is modelled as the mathematical value.) -/
def atoi (s : String) : Int :=
  match s.data.dropWhile isSpaceC with
  | '-' :: rest => -(atoiLoop rest 0 : Int)
  | '+' :: rest => (atoiLoop rest 0 : Int)
  | cs => (atoiLoop cs 0 : Int)

/-- One option as delivered by `getopt_long` with option string
"dhu:nq:k:sxvargf:" and the `longopts` table of ideviceinfo.c.  This models
the option stream after `getopt_long`'s tokenization; `getopt_long` preserves
the relative order of the options themselves, so the order of this list is
the order the options appeared on the command line.  `unknown` is
`getopt_long` returning a character not in the table. -/
inductive CliOpt where
  | dbg
  | help
  | udidOpt (s : String)
  | network
  | domainOpt (s : String)
  | keyOpt (s : String)
  | simpleOpt
  | xml
  | versionOpt
  | assistive
  | reset
  | getOpt
  | findOpt (s : String)
  | unknown
  deriving DecidableEq, Repr

/-- The local variables of `main` that the option loop mutates. -/
structure MainState where
  simple : Bool
  format : Nat
  udid : Option String
  useNetwork : Bool
  assistiveFunc : Bool
  assistiveEnable : Nat
  domain : Option String
  key : Option String
  deriving DecidableEq, Repr

/-- Initial values of `main`'s locals (lines 196-203): `FORMAT_KEY_VALUE` is
1; `udid`, `domain` and `key` start as NULL. -/
def initialState : MainState :=
  { simple := false, format := 1, udid := none, useNetwork := false,
    assistiveFunc := false, assistiveEnable := 0, domain := none, key := none }

/-- One group of `printf`/`fprintf` calls of `main` or `find_driver`:
`usage` is the `print_usage` output, the `errEmpty*` events are the
"must not be empty" stderr messages, `versionInfo` the `-v` output, and
`sentinel s` is `find_driver` printing the literal `s`. -/
inductive PrintEvent where
  | usage
  | errEmptyUdid
  | errEmptyDomain
  | errEmptyKey
  | versionInfo
  | sentinel (s : String)
  deriving DecidableEq, Repr

/-- How a run of `main` ends, as far as the option loop decides it:
`exited code prints` is a `return` inside the loop after the given prints;
`proceeded st` is falling out of the loop with final state `st` and going on
to `idevice_new_with_options` (the device-connection / lockdown part). -/
inductive MainOutcome where
  | exited (code : Int) (prints : List PrintEvent)
  | proceeded (st : MainState)
  deriving DecidableEq, Repr

/-- The `while (getopt_long(...)) switch` loop of `main` (lines 230-296).
The `d` case calls `idevice_set_debug_level(1)` (library side effect, no
local state) and continues.  The `f` case returns 0 immediately: with an
empty argument it prints nothing; otherwise it runs
`find_driver(atoi(optarg), udid)` and returns 0. -/
def mainLoop (w : USBWorld) : List CliOpt → MainState → MainOutcome
  | [], st => MainOutcome.proceeded st
  | o :: rest, st =>
    match o with
    | CliOpt.dbg => mainLoop w rest st
    | CliOpt.help => MainOutcome.exited 0 [PrintEvent.usage]
    | CliOpt.udidOpt s =>
      if s = "" then MainOutcome.exited 2 [PrintEvent.errEmptyUdid, PrintEvent.usage]
      else mainLoop w rest { st with udid := some s }
    | CliOpt.network => mainLoop w rest { st with useNetwork := true }
    | CliOpt.domainOpt s =>
      if s = "" then MainOutcome.exited 2 [PrintEvent.errEmptyDomain, PrintEvent.usage]
      else mainLoop w rest { st with domain := some s }
    | CliOpt.keyOpt s =>
      if s = "" then MainOutcome.exited 2 [PrintEvent.errEmptyKey, PrintEvent.usage]
      else mainLoop w rest { st with key := some s }
    | CliOpt.simpleOpt => mainLoop w rest { st with simple := true }
    | CliOpt.xml => mainLoop w rest { st with format := 2 }
    | CliOpt.versionOpt => MainOutcome.exited 0 [PrintEvent.versionInfo]
    | CliOpt.assistive => mainLoop w rest { st with assistiveFunc := true, assistiveEnable := 1 }
    | CliOpt.reset => mainLoop w rest { st with assistiveFunc := true, assistiveEnable := 0 }
    | CliOpt.getOpt => mainLoop w rest { st with assistiveFunc := true, assistiveEnable := 10 }
    | CliOpt.findOpt s =>
      if s = "" then MainOutcome.exited 0 []
      else MainOutcome.exited 0 [PrintEvent.sentinel (find_driver (atoi s) st.udid w).1]
    | CliOpt.unknown => MainOutcome.exited 2 [PrintEvent.usage]

/-- `main` up to the end of the option loop, from the initial local state. -/
def mainRun (w : USBWorld) (opts : List CliOpt) : MainOutcome :=
  mainLoop w opts initialState

/-- Device fields in constructor order: idVendor, idProduct, iSerialNumber,
serial, openOk, readRet, garbage.  An Apple device, product 9, serial "AAA",
accessible, successful serial read. -/
def dMatchA : USBDevice := ⟨0x5ac, 9, 3, "AAA", true, 3, ""⟩

/-- Like `dMatchA` but with serial "BBB". -/
def dCandB : USBDevice := ⟨0x5ac, 9, 3, "BBB", true, 3, ""⟩

/-- Apple device, product 9, serial "CCC", accessible. -/
def dMatchC : USBDevice := ⟨0x5ac, 9, 3, "CCC", true, 3, ""⟩

/-- Apple device, product 9, whose `usb_open` fails. -/
def dNoOpen : USBDevice := ⟨0x5ac, 9, 3, "CCC", false, 1, ""⟩

/-- Apple device, product 42, actual serial "ABC", but `usb_open` fails. -/
def dOpenFail : USBDevice := ⟨0x5ac, 42, 3, "ABC", false, 1, ""⟩

/-- Apple device, product 5, whose serial read fails (return −1) leaving an
empty buffer. -/
def dEmptyBuf : USBDevice := ⟨0x5ac, 5, 0, "REAL", true, -1, ""⟩

/-- Apple device, product 7, actual serial "SERIAL", whose serial read fails
(return −1) leaving "XYZ" in the uninitialized buffer. -/
def dNegRead : USBDevice := ⟨0x5ac, 7, 3, "SERIAL", true, -1, "XYZ"⟩

/-- Driver available, one bus holding only `dOpenFail`. -/
def wOpenFail : USBWorld := ⟨0, [⟨[dOpenFail]⟩]⟩

/-- Driver available, one bus holding only `dEmptyBuf`. -/
def wEmptyStr : USBWorld := ⟨0, [⟨[dEmptyBuf]⟩]⟩

/-- Driver available, one bus holding only `dNegRead`. -/
def wNegRead : USBWorld := ⟨0, [⟨[dNegRead]⟩]⟩

/-- Driver NOT available (`driver.major == -1`); a matching device is
attached but can never be reached. -/
def wNoDriver : USBWorld := ⟨-1, [⟨[dMatchA]⟩]⟩

/-- Driver available, one bus with `dMatchA` then `dCandB`. -/
def wShort : USBWorld := ⟨0, [⟨[dMatchA, dCandB]⟩]⟩

/-- Driver available, one bus with `dCandB` then `dMatchA`: the device list
is a permutation of that of `wShort`. -/
def wPerm2 : USBWorld := ⟨0, [⟨[dCandB, dMatchA]⟩]⟩

/-- Driver available, one bus with the inaccessible `dNoOpen` listed before
the matching `dMatchC`. -/
def wSkip : USBWorld := ⟨0, [⟨[dNoOpen, dMatchC]⟩]⟩

/-- Driver available, one bus holding only `dMatchA`. -/
def wOne : USBWorld := ⟨0, [⟨[dMatchA]⟩]⟩

/-- Driver available, no bus at all. -/
def wEmpty : USBWorld := ⟨0, []⟩

/-- Does this event record a `usb_open` call on a device strictly after
position `i` of the enumeration? -/
def isOpenAfter (i : Nat) (e : Event) : Bool :=
  match e with
  | Event.openDev j _ => decide (i < j)
  | _ => false

/-- `true` iff the trace contains a `usb_open` call on a device strictly
after position `i` of the enumeration. -/
def opensAfter (i : Nat) (evs : List Event) : Bool :=
  evs.any (isOpenAfter i)

theorem scanDevices_fst (pid : Int) (u : String) :
    ∀ l : List (Nat × USBDevice),
      (scanDevices pid u l).1 = l.any (fun p => fullMatch pid u p.2) := by
  intro l
  induction l with
  | nil => simp [scanDevices]
  | cons p rest ih =>
    by_cases hf : filterPass pid p.2 = true
    · by_cases ho : p.2.openOk = true
      · by_cases hs : serialMatches u p.2 = true
        · simp [scanDevices, hf, ho, hs, fullMatch]
        · simp [scanDevices, hf, ho, hs, fullMatch, ih]
      · simp [scanDevices, hf, ho, fullMatch, ih]
    · simp [scanDevices, hf, fullMatch, ih]

theorem any_enumFrom (f : USBDevice → Bool) :
    ∀ (l : List USBDevice) (n : Nat), (List.enumFrom n l).any (fun p => f p.2) = l.any f := by
  intro l
  induction l with
  | nil => intro n; rfl
  | cons d rest ih =>
    intro n
    simp only [List.enumFrom, List.any_cons, ih]

/-- Characterization of the printed verdict on a non-NULL target: "TRUE" is
printed exactly when the driver is available and some attached device passes
the filter, opens, and reports a serial buffer equal to the target. -/
theorem find_driver_true_iff (pid : Int) (u : String) (w : USBWorld) :
    (find_driver pid (some u) w).1 = "TRUE" ↔
      (w.driverMajor ≠ -1 ∧ ∃ d ∈ flattenDevices w, fullMatch pid u d = true) := by
  by_cases hM : w.driverMajor = -1
  · simp [find_driver, hM]
  · have hM2 : (w.driverMajor == -1) = false := by simp [hM]
    simp only [find_driver, hM2, Bool.false_eq_true, if_false]
    rw [scanDevices_fst]
    unfold List.enum
    rw [any_enumFrom]
    by_cases hA : (flattenDevices w).any (fullMatch pid u) = true
    · simp [hA, hM, List.any_eq_true.mp hA]
    · simp only [hA, if_false]
      constructor
      · intro hcontra
        exact absurd hcontra (by decide)
      · rintro ⟨-, hd⟩
        exact absurd (List.any_eq_true.mpr hd) hA

/-- The resolver prints nothing but a sentinel: its output is "TRUE" or
"FALSE" on every input. -/
theorem find_driver_sentinel (pid : Int) (udid : Option String) (w : USBWorld) :
    (find_driver pid udid w).1 = "TRUE" ∨ (find_driver pid udid w).1 = "FALSE" := by
  match udid with
  | none => right; rfl
  | some u =>
    by_cases hM : (w.driverMajor == -1) = true
    · right; simp [find_driver, hM]
    · simp only [find_driver, hM, Bool.false_eq_true, if_false]
      by_cases hs : (scanDevices pid u (flattenDevices w).enum).1 = true
      · left; simp [hs]
      · right; simp [hs]

/-- Once the scan has passed position `i` holding a device on which it stops,
no `usb_open` call is made on any later position. -/
theorem scan_opensAfter (pid : Int) (u : String) :
    ∀ (devs : List USBDevice) (n i : Nat) (d : USBDevice),
      (i, d) ∈ List.enumFrom n devs → fullMatch pid u d = true →
      opensAfter i (scanDevices pid u (List.enumFrom n devs)).2 = false := by
  intro devs
  induction devs with
  | nil => intro n i d hmem _; simp [List.enumFrom] at hmem
  | cons hd tl ih =>
    intro n i d hmem hfull
    have hcons : List.enumFrom n (hd :: tl) = (n, hd) :: List.enumFrom (n + 1) tl := rfl
    rw [hcons] at hmem ⊢
    rcases List.mem_cons.mp hmem with heq | htl
    · have hi : i = n := congrArg Prod.fst heq
      have hdd : d = hd := congrArg Prod.snd heq
      subst hi
      subst hdd
      simp only [fullMatch, Bool.and_eq_true] at hfull
      obtain ⟨⟨hf, ho⟩, hs⟩ := hfull
      simp [scanDevices, hf, ho, hs, opensAfter, isOpenAfter]
    · have hge : n + 1 ≤ i := (List.mk_mem_enumFrom_iff_le_and_getElem?_sub.mp htl).1
      have hrec := ih (n + 1) i d htl hfull
      by_cases hf : filterPass pid hd = true
      · by_cases ho : hd.openOk = true
        · by_cases hs : serialMatches u hd = true
          · simp only [scanDevices, hf, ho, hs, if_true]
            simp [opensAfter, isOpenAfter]
            omega
          · simp only [scanDevices, hf, ho, hs, if_true, Bool.false_eq_true, if_false]
            simp only [opensAfter, isOpenAfter, List.any_cons] at hrec ⊢
            simp [hrec]
            omega
        · simp only [scanDevices, hf, ho, if_true, Bool.false_eq_true, if_false]
          simp only [opensAfter, isOpenAfter, List.any_cons] at hrec ⊢
          simp [hrec]
          omega
      · simp only [scanDevices, hf, Bool.false_eq_true, if_false]
        exact hrec

/-- Every `usb_open` call of the scan that returned a handle is followed by a
`usb_close` on the same device within the scan's trace. -/
theorem scan_closes (pid : Int) (u : String) :
    ∀ (l : List (Nat × USBDevice)) (i : Nat),
      Event.openDev i true ∈ (scanDevices pid u l).2 →
      Event.closeDev i ∈ (scanDevices pid u l).2 := by
  intro l
  induction l with
  | nil => intro i h; simp [scanDevices] at h
  | cons p rest ih =>
    intro i h
    by_cases hf : filterPass pid p.2 = true
    · by_cases ho : p.2.openOk = true
      · by_cases hs : serialMatches u p.2 = true
        · simp only [scanDevices, hf, ho, hs, if_true] at h ⊢
          simp only [List.mem_cons, List.not_mem_nil, or_false] at h ⊢
          rcases h with h | h | h
          · injection h with h1 h2
            exact Or.inr (Or.inr (by rw [h1]))
          · simp at h
          · simp at h
        · simp only [scanDevices, hf, ho, hs, if_true, Bool.false_eq_true, if_false] at h ⊢
          simp only [List.mem_cons] at h ⊢
          rcases h with h | h | h | h
          · injection h with h1 h2
            exact Or.inr (Or.inr (Or.inl (by rw [h1])))
          · simp at h
          · simp at h
          · exact Or.inr (Or.inr (Or.inr (ih i h)))
      · simp only [scanDevices, hf, ho, if_true, Bool.false_eq_true, if_false] at h ⊢
        simp only [List.mem_cons] at h ⊢
        rcases h with h | h
        · simp at h
        · exact Or.inr (ih i h)
    · simp only [scanDevices, hf, Bool.false_eq_true, if_false] at h ⊢
      exact ih i h

/-- Claim C1, as stated, is false: a device with matching vendor id, product
id and actual serial-number descriptor exists, yet `find_driver` prints
"FALSE", because that device's `usb_open` fails and the code skips it. -/
theorem C1_counterexample :
    ¬ (((find_driver 42 (some "ABC") wOpenFail).1 = "TRUE") ↔
        ∃ d ∈ flattenDevices wOpenFail, specMatch 42 "ABC" d = true) := by
  decide

/-- Claim C1 (amended): for every pid and non-null udid, `find_driver`
prints "TRUE" iff the USB driver is available and some attached device
passes the vendor 0x5ac / product pid filter, opens successfully, and its
serial read returns nonzero with buffer contents equal to udid
byte-for-byte; in every other case it prints "FALSE". -/
theorem C1_resolver_verdict (pid : Int) (u : String) (w : USBWorld) :
    (((find_driver pid (some u) w).1 = "TRUE") ↔
        (w.driverMajor ≠ -1 ∧ ∃ d ∈ flattenDevices w, fullMatch pid u d = true))
      ∧ ((find_driver pid (some u) w).1 = "TRUE" ∨ (find_driver pid (some u) w).1 = "FALSE") :=
  ⟨find_driver_true_iff pid u w, find_driver_sentinel pid (some u) w⟩

/-- Claim C2, as stated, is false for an EMPTY (non-NULL) target identity:
`find_driver` only special-cases a NULL pointer, so with udid = "" it
initializes the USB layer and enumerates (nonempty trace), and can even
report "TRUE" when a candidate's failed serial read leaves an empty buffer. -/
theorem C2_counterexample :
    (find_driver 5 (some "") wEmptyStr).1 = "TRUE" ∧
      (find_driver 5 (some "") wEmptyStr).2 ≠ [] := by
  decide

/-- Claim C2 (amended): only an ABSENT (NULL) target identity short-circuits:
for every pid and world, `find_driver` with a NULL udid prints "FALSE" and
performs no USB call at all. -/
theorem C2_null_short_circuit (pid : Int) (w : USBWorld) :
    find_driver pid none w = ("FALSE", []) := rfl

/-- Claim C3, as stated, is false: the code tests `if (ret)`, not
`if (ret > 0)`, so a NEGATIVE `usb_get_string_simple` return is not skipped —
the (uninitialized) buffer is still compared, and here it makes the resolver
print "TRUE" although the read failed. -/
theorem C3_counterexample :
    dNegRead.readRet < 0 ∧ (find_driver 7 (some "XYZ") wNegRead).1 = "TRUE" := by
  decide

/-- Claim C3 (amended): only a ZERO `usb_get_string_simple` return makes the
scan skip the candidate without comparing; any NONZERO return (positive or
negative) leads to the buffer being compared against the target identity. -/
theorem C3_read_return (pid : Int) (u : String) (p : Nat × USBDevice)
    (rest : List (Nat × USBDevice))
    (hf : filterPass pid p.2 = true) (ho : p.2.openOk = true) :
    (p.2.readRet = 0 → (scanDevices pid u (p :: rest)).1 = (scanDevices pid u rest).1)
      ∧ (p.2.readRet ≠ 0 →
          (scanDevices pid u (p :: rest)).1
            = ((readBuffer p.2 == u) || (scanDevices pid u rest).1)) := by
  constructor
  · intro hz
    have hs : serialMatches u p.2 = false := by simp [serialMatches, hz]
    simp [scanDevices, hf, ho, hs]
  · intro hnz
    have hs : serialMatches u p.2 = (readBuffer p.2 == u) := by
      simp [serialMatches, bne, hnz]
    by_cases hb : (readBuffer p.2 == u) = true
    · rw [hb] at hs
      simp [scanDevices, hf, ho, hs, hb]
    · have hb2 : (readBuffer p.2 == u) = false := by
        cases hcase : (readBuffer p.2 == u) with
        | true => exact absurd hcase hb
        | false => rfl
      rw [hb2] at hs
      simp [scanDevices, hf, ho, hs, hb2]

/-- Concrete instance of `C3_read_return`: `dNegRead` passes the filter and
opens; its read returns −1 (nonzero), so the buffer is compared. -/
theorem C3_read_return_witness :
    filterPass 7 dNegRead = true ∧ dNegRead.openOk = true ∧
      ((dNegRead.readRet = 0 →
          (scanDevices 7 "XYZ" [(0, dNegRead)]).1 = (scanDevices 7 "XYZ" []).1)
        ∧ (dNegRead.readRet ≠ 0 →
            (scanDevices 7 "XYZ" [(0, dNegRead)]).1
              = ((readBuffer dNegRead == "XYZ") || (scanDevices 7 "XYZ" []).1))) :=
  ⟨by decide, by decide, C3_read_return 7 "XYZ" (0, dNegRead) [] (by decide) (by decide)⟩

/-- Claim C4: when the USB access layer reports no driver support
(`driver.major == -1`), `find_driver` prints "FALSE" for every pid and every
udid (NULL or not); the unavailability collapses into "not found". -/
theorem C4_env_unavailable (pid : Int) (udid : Option String) (w : USBWorld)
    (h : w.driverMajor = -1) : (find_driver pid udid w).1 = "FALSE" := by
  match udid with
  | none => rfl
  | some u => simp [find_driver, h]

/-- Concrete instance of `C4_env_unavailable`: a matching device is attached,
but with `driver.major = -1` the resolver still reports "FALSE". -/
theorem C4_env_unavailable_witness :
    wNoDriver.driverMajor = -1 ∧ (find_driver 9 (some "AAA") wNoDriver).1 = "FALSE" :=
  ⟨rfl, C4_env_unavailable 9 (some "AAA") wNoDriver rfl⟩

theorem mem_of_lookup {l : List USBDevice} {i : Nat} {d : USBDevice}
    (h : l[i]? = some d) : d ∈ l := by
  obtain ⟨hlt, heq⟩ := List.getElem?_eq_some.mp h
  exact heq ▸ List.getElem_mem hlt

/-- Claim C5: if the device at position `i` of the enumeration is one the
scan stops on (filter passes, open succeeds, serial read compares equal) and
the driver is available, then `find_driver` prints "TRUE" and its trace
contains no `usb_open` call on any position after `i`: a non-matching device
listed after the first matching one is never opened. -/
theorem C5_short_circuit (pid : Int) (u : String) (w : USBWorld) (i : Nat) (d : USBDevice)
    (hM : w.driverMajor ≠ -1)
    (hget : (flattenDevices w)[i]? = some d) (hmatch : fullMatch pid u d = true) :
    (find_driver pid (some u) w).1 = "TRUE" ∧
      opensAfter i (find_driver pid (some u) w).2 = false := by
  have hmem : (i, d) ∈ (flattenDevices w).enum :=
    List.mem_enum_iff_getElem?.mpr hget
  constructor
  · exact (find_driver_true_iff pid u w).mpr ⟨hM, d, mem_of_lookup hget, hmatch⟩
  · have hsc := scan_opensAfter pid u (flattenDevices w) 0 i d hmem hmatch
    have hM2 : (w.driverMajor == -1) = false := by simp [hM]
    simp only [find_driver, hM2, Bool.false_eq_true, if_false]
    simp only [opensAfter, List.any_cons, isOpenAfter, Bool.false_or]
    exact hsc

/-- Concrete instance of `C5_short_circuit`: in `wShort` the matching
`dMatchA` is listed before `dCandB`; the verdict is "TRUE" and position 1 is
never opened. -/
theorem C5_short_circuit_witness :
    wShort.driverMajor ≠ -1 ∧ (flattenDevices wShort)[0]? = some dMatchA ∧
      fullMatch 9 "AAA" dMatchA = true ∧
      ((find_driver 9 (some "AAA") wShort).1 = "TRUE" ∧
        opensAfter 0 (find_driver 9 (some "AAA") wShort).2 = false) :=
  ⟨by decide, by decide, by decide,
    C5_short_circuit 9 "AAA" wShort 0 dMatchA (by decide) (by decide) (by decide)⟩

/-- Claim C6: a candidate whose `usb_open` fails is skipped — the scan's
verdict with such a device at the head is the verdict without it — and a
matching device listed at a later position still makes `find_driver` print
"TRUE"; one inaccessible device never aborts the query. -/
theorem C6_fail_open_next (pid : Int) (u : String) (w : USBWorld) (i j k : Nat)
    (d e : USBDevice) (rest : List (Nat × USBDevice))
    (hM : w.driverMajor ≠ -1)
    (hdi : (flattenDevices w)[i]? = some d)
    (hdf : filterPass pid d = true) (hdo : d.openOk = false)
    (hje : (flattenDevices w)[j]? = some e) (hij : i < j)
    (hme : fullMatch pid u e = true) :
    (find_driver pid (some u) w).1 = "TRUE" ∧
      (scanDevices pid u ((k, d) :: rest)).1 = (scanDevices pid u rest).1 := by
  constructor
  · exact (find_driver_true_iff pid u w).mpr ⟨hM, e, mem_of_lookup hje, hme⟩
  · simp [scanDevices, hdf, hdo]

/-- Concrete instance of `C6_fail_open_next`: in `wSkip` the inaccessible
`dNoOpen` precedes the matching `dMatchC`, and the verdict is still "TRUE". -/
theorem C6_fail_open_next_witness :
    wSkip.driverMajor ≠ -1 ∧ (flattenDevices wSkip)[0]? = some dNoOpen ∧
      filterPass 9 dNoOpen = true ∧ dNoOpen.openOk = false ∧
      (flattenDevices wSkip)[1]? = some dMatchC ∧ (0 : Nat) < 1 ∧
      fullMatch 9 "CCC" dMatchC = true ∧
      ((find_driver 9 (some "CCC") wSkip).1 = "TRUE" ∧
        (scanDevices 9 "CCC" [(0, dNoOpen)]).1 = (scanDevices 9 "CCC" []).1) :=
  ⟨by decide, by decide, by decide, by decide, by decide, by decide, by decide,
    C6_fail_open_next 9 "CCC" wSkip 0 1 0 dNoOpen dMatchC [] (by decide) (by decide)
      (by decide) (by decide) (by decide) (by decide) (by decide)⟩

/-- Claim C7: every `usb_open` call of `find_driver` that returned a handle
is paired with a `usb_close` on the same device in the trace, whether or not
that device matched (including the matching device the scan stops on). -/
theorem C7_handles_closed (pid : Int) (udid : Option String) (w : USBWorld) (i : Nat)
    (h : Event.openDev i true ∈ (find_driver pid udid w).2) :
    Event.closeDev i ∈ (find_driver pid udid w).2 := by
  match udid with
  | none => simp [find_driver] at h
  | some u =>
    by_cases hM : (w.driverMajor == -1) = true
    · simp [find_driver, hM] at h
    · have hM2 : (w.driverMajor == -1) = false := by
        cases hcase : (w.driverMajor == -1) with
        | true => exact absurd hcase hM
        | false => rfl
      simp only [find_driver, hM2, Bool.false_eq_true, if_false] at h ⊢
      simp only [List.mem_cons] at h ⊢
      rcases h with h | h | h | h | h
      · simp at h
      · simp at h
      · simp at h
      · simp at h
      · exact Or.inr (Or.inr (Or.inr (Or.inr (scan_closes pid u _ i h))))

/-- Concrete instance of `C7_handles_closed`: in `wOne` the single device is
opened (successfully) and the trace also closes it. -/
theorem C7_handles_closed_witness :
    Event.openDev 0 true ∈ (find_driver 9 (some "AAA") wOne).2 ∧
      Event.closeDev 0 ∈ (find_driver 9 (some "AAA") wOne).2 :=
  ⟨by decide, C7_handles_closed 9 (some "AAA") wOne 0 (by decide)⟩

/-- Claim C8: the printed verdict depends only on which devices are attached,
not on their enumeration order: two worlds with the same driver state whose
device sequences are permutations of each other get the same verdict, for
every pid and udid. -/
theorem C8_order_independent (pid : Int) (udid : Option String) (w w₂ : USBWorld)
    (hM : w.driverMajor = w₂.driverMajor)
    (hperm : (flattenDevices w).Perm (flattenDevices w₂)) :
    (find_driver pid udid w).1 = (find_driver pid udid w₂).1 := by
  match udid with
  | none => rfl
  | some u =>
    by_cases h1 : (find_driver pid (some u) w).1 = "TRUE"
    · obtain ⟨hM1, d, hd, hmatch⟩ := (find_driver_true_iff pid u w).mp h1
      have h2 : (find_driver pid (some u) w₂).1 = "TRUE" :=
        (find_driver_true_iff pid u w₂).mpr ⟨hM ▸ hM1, d, hperm.mem_iff.mp hd, hmatch⟩
      rw [h1, h2]
    · have h1f : (find_driver pid (some u) w).1 = "FALSE" :=
        (find_driver_sentinel pid (some u) w).resolve_left h1
      by_cases h2 : (find_driver pid (some u) w₂).1 = "TRUE"
      · obtain ⟨hM2, d, hd, hmatch⟩ := (find_driver_true_iff pid u w₂).mp h2
        exact absurd
          ((find_driver_true_iff pid u w).mpr ⟨hM ▸ hM2, d, hperm.mem_iff.mpr hd, hmatch⟩) h1
      · have h2f : (find_driver pid (some u) w₂).1 = "FALSE" :=
          (find_driver_sentinel pid (some u) w₂).resolve_left h2
        rw [h1f, h2f]

/-- Concrete instance of `C8_order_independent`: `wShort` and `wPerm2` list
the same two devices in opposite orders and get the same verdict. -/
theorem C8_order_independent_witness :
    wShort.driverMajor = wPerm2.driverMajor ∧
      (flattenDevices wShort).Perm (flattenDevices wPerm2) ∧
      (find_driver 9 (some "AAA") wShort).1 = (find_driver 9 (some "AAA") wPerm2).1 :=
  ⟨rfl, by decide, C8_order_independent 9 (some "AAA") wShort wPerm2 rfl (by decide)⟩

/-- Claim C9, as stated, is false: here the CLI is invoked with the
find-driver flag (preceded by `-u ""`), yet the program prints no sentinel at
all and exits with status 2, because the empty `-u` argument makes the loop
return 2 before the `-f` case is reached. -/
theorem C9_counterexample :
    mainRun wEmpty [CliOpt.udidOpt "", CliOpt.findOpt "5"] =
      MainOutcome.exited 2 [PrintEvent.errEmptyUdid, PrintEvent.usage] := by
  decide

/-- Claim C9 (amended): when the option loop reaches a find-driver flag with
a NON-EMPTY argument, the program prints exactly the sentinel produced by
`find_driver` — which is "TRUE" or "FALSE" — and returns 0 regardless of the
outcome; with an empty argument it returns 0 printing nothing. -/
theorem C9_sentinel (w : USBWorld) (st : MainState) (s : String) (rest : List CliOpt)
    (hs : s ≠ "") :
    mainLoop w (CliOpt.findOpt s :: rest) st =
        MainOutcome.exited 0 [PrintEvent.sentinel (find_driver (atoi s) st.udid w).1]
      ∧ ((find_driver (atoi s) st.udid w).1 = "TRUE"
          ∨ (find_driver (atoi s) st.udid w).1 = "FALSE")
      ∧ mainLoop w (CliOpt.findOpt "" :: rest) st = MainOutcome.exited 0 [] := by
  refine ⟨?_, find_driver_sentinel (atoi s) st.udid w, rfl⟩
  simp [mainLoop, hs]

/-- Concrete instance of `C9_sentinel` with `-f 9` and no preceding `-u`. -/
theorem C9_sentinel_witness :
    ("9" : String) ≠ "" ∧
      (mainLoop wOne (CliOpt.findOpt "9" :: [CliOpt.xml]) initialState =
          MainOutcome.exited 0
            [PrintEvent.sentinel (find_driver (atoi "9") initialState.udid wOne).1]
        ∧ ((find_driver (atoi "9") initialState.udid wOne).1 = "TRUE"
            ∨ (find_driver (atoi "9") initialState.udid wOne).1 = "FALSE")
        ∧ mainLoop wOne (CliOpt.findOpt "" :: [CliOpt.xml]) initialState =
            MainOutcome.exited 0 []) :=
  ⟨by decide, C9_sentinel wOne initialState "9" [CliOpt.xml] (by decide)⟩

/-- Claim C10: option processing is order-dependent and terminating around
`-f`: (1) a `-f` with non-empty argument ends `main` at once with exit code 0
and the single sentinel print of `find_driver(atoi(arg), udid)` — the result
does not depend on the remaining options, which are never processed, and the
outcome is `exited`, never `proceeded`, so no device connection or lockdown
session is attempted; (2) if no `-u` preceded, the identity is NULL and the
sentinel is "FALSE"; (3) a preceding non-empty `-u u` runs the rest of the
loop with the identity set to `u`. -/
theorem C10_find_flag (w : USBWorld) (st : MainState) (s u : String) (rest : List CliOpt)
    (hs : s ≠ "") :
    mainLoop w (CliOpt.findOpt s :: rest) st =
        MainOutcome.exited 0 [PrintEvent.sentinel (find_driver (atoi s) st.udid w).1]
      ∧ (st.udid = none →
          mainLoop w (CliOpt.findOpt s :: rest) st =
            MainOutcome.exited 0 [PrintEvent.sentinel "FALSE"])
      ∧ (u ≠ "" →
          mainLoop w (CliOpt.udidOpt u :: rest) st = mainLoop w rest { st with udid := some u }) := by
  refine ⟨by simp [mainLoop, hs], ?_, ?_⟩
  · intro hu
    simp [mainLoop, hs, hu, find_driver]
  · intro hu
    simp [mainLoop, hu]

/-- Concrete instance of `C10_find_flag`: `-f 9` with no prior `-u`, a
malformed `-u ""` after it never being reached, and `-u AAA` threading the
identity. -/
theorem C10_find_flag_witness :
    ("9" : String) ≠ "" ∧
      (mainLoop wOne (CliOpt.findOpt "9" :: [CliOpt.udidOpt ""]) initialState =
          MainOutcome.exited 0
            [PrintEvent.sentinel (find_driver (atoi "9") initialState.udid wOne).1]
        ∧ (initialState.udid = none →
            mainLoop wOne (CliOpt.findOpt "9" :: [CliOpt.udidOpt ""]) initialState =
              MainOutcome.exited 0 [PrintEvent.sentinel "FALSE"])
        ∧ (("AAA" : String) ≠ "" →
            mainLoop wOne (CliOpt.udidOpt "AAA" :: [CliOpt.udidOpt ""]) initialState =
              mainLoop wOne [CliOpt.udidOpt ""] { initialState with udid := some "AAA" })) :=
  ⟨by decide, C10_find_flag wOne initialState "9" "AAA" [CliOpt.udidOpt ""] (by decide)⟩
